import Mathlib

/-!
# ATS Mock API Simulator — verification of the spec's claims

Shallow embedding of the mock-serving engine and the admin frontend of the
ats-mock-simulator repository. The frontend components (SchemaForm,
OpenAPIImport, CreateEndpoint) are embedded from the JavaScript sources under
`src/frontend`; the backend serving engine (force-response resolution, schema
validator, generators, importer) is not present among the repository's files,
so those parts are modelled from the spec, as marked on each definition.
-/

namespace AtsMock

/-- A response template record: `name`, HTTP `status_code`, `content_type`,
raw `body`, and the `is_default` flag (data model §3 of the spec). -/
structure ResponseTemplate where
  name : String
  status_code : Int
  content_type : String
  body : String
  is_default : Bool
deriving DecidableEq, Repr

/-- The numeric value of a decimal digit, `none` on any other character. -/
def charDigit (c : Char) : Option Nat :=
  if c.isDigit then some (c.toNat - '0'.toNat) else none

/-- The value of a non-empty all-digit character list, `none` otherwise. -/
def digitsVal : List Char → Option Nat
  | [] => none
  | cs =>
    cs.foldl (fun acc c => acc.bind fun n => (charDigit c).map fun d => 10 * n + d)
      (some 0)

/-- Decimal integer parsing of a directive value: an optional leading minus
sign followed by digits. -/
def parseIntDir (s : String) : Option Int :=
  match s.data with
  | '-' :: rest => (digitsVal rest).map fun n => -(n : Int)
  | cs => (digitsVal cs).map fun n => (n : Int)

/-- Modelled from the spec: force-response template selection (§4.1), the
backend router being absent from the repository's files. Given the Endpoint's
templates in creation order and the optional `X-Force-Response` directive:
(1) first template whose `name` equals the directive exactly (case-sensitive);
(2) else, if the directive parses as an integer, the first template whose
`status_code` equals it; (3) else the template flagged `is_default`;
`none` when no default exists either (`NoTemplateConfigured`). -/
def selectTemplate (ts : List ResponseTemplate) (directive : Option String) :
    Option ResponseTemplate :=
  match directive with
  | none => ts.find? (fun t => t.is_default)
  | some v =>
    match ts.find? (fun t => t.name == v) with
    | some t => some t
    | none =>
      match parseIntDir v with
      | some n =>
        match ts.find? (fun t => t.status_code == n) with
        | some t => some t
        | none => ts.find? (fun t => t.is_default)
      | none => ts.find? (fun t => t.is_default)

/-- The response the router hands back: status, content type, rendered body,
and the `X-Template-Used` diagnostic header value. -/
structure MockResponse where
  status_code : Int
  content_type : String
  body : String
  template_used : String
deriving DecidableEq, Repr

/-- Modelled from the spec: serving a request from the selected template
(§4.1/§6) — status code and content type come verbatim from the record and the
response carries the diagnostic `X-Template-Used` field naming the template. -/
def serveTemplate (ts : List ResponseTemplate) (directive : Option String) :
    Option MockResponse :=
  (selectTemplate ts directive).map fun t =>
    { status_code := t.status_code
      content_type := t.content_type
      body := t.body
      template_used := t.name }

/-- A JSON-ish payload value as the validator sees it: string, number
(rationals stand in for JSON numbers) or boolean. -/
inductive JsonVal where
  | str (s : String)
  | num (q : Rat)
  | bool (b : Bool)
deriving DecidableEq, Repr

/-- The five field types of a FieldValidation (data model §3). -/
inductive FieldType where
  | string
  | int
  | float
  | bool
  | email
deriving DecidableEq, Repr

/-- The violation kinds of the validator's taxonomy (§4.2). -/
inductive ViolationKind where
  | missingField
  | typeMismatch
  | lengthViolation
  | patternViolation
  | rangeViolation
  | choiceViolation
deriving DecidableEq, Repr

/-- One reported violation: the offending field and the kind of check that
failed. -/
structure Violation where
  field : String
  kind : ViolationKind
deriving DecidableEq, Repr

/-- One field rule of a SchemaDef (data model §3). Absent constraints are
`none` / `[]` and mean unconstrained. The regular-expression `pattern` is
abstracted to its decision function (which strings it matches). -/
structure FieldValidation where
  field_name : String
  field_type : FieldType
  required : Bool
  min_length : Option Nat := none
  max_length : Option Nat := none
  pattern : Option (String → Bool) := none
  min_value : Option Rat := none
  max_value : Option Rat := none
  choices : List String := []

/-- Modelled from the spec: the "standard address pattern" check for `email`
fields (§4.2), abstracted to the presence of `@` and `.`. -/
def emailOk (s : String) : Bool :=
  s.data.contains '@' && s.data.contains '.'

/-- Modelled from the spec: the type coercion/check of §4.2 — `int`/`float`
must be numeric (an `int` additionally integral), `bool` boolean, `email` a
string matching the address pattern, `string` any string. -/
def typeOk (ft : FieldType) (v : JsonVal) : Bool :=
  match ft, v with
  | .string, .str _ => true
  | .int, .num q => q.den == 1
  | .float, .num _ => true
  | .bool, .bool _ => true
  | .email, .str s => emailOk s
  | _, _ => false

/-- The literal form of a value used for the `choices` exact-match
allow-list (§3: choices are literal strings, valid for any type). -/
def valueRepr : JsonVal → String
  | .str s => s
  | .num q => toString q
  | .bool b => toString b

/-- Modelled from the spec: the constraint checks run on a type-correct value
(§4.2) — string-only length and pattern checks, numeric-only range check, and
the any-type choices check, each contributing its violation. -/
def fieldChecks (fv : FieldValidation) (v : JsonVal) : List Violation :=
  let lengthViol :=
    match v with
    | .str s =>
      (if (fv.min_length.elim false fun m => s.length < m) ||
          (fv.max_length.elim false fun m => m < s.length) then
        [⟨fv.field_name, .lengthViolation⟩]
      else []) ++
      (match fv.pattern with
       | some p => if p s then [] else [⟨fv.field_name, .patternViolation⟩]
       | none => [])
    | _ => []
  let rangeViol :=
    match v with
    | .num q =>
      if (fv.min_value.elim false fun m => q < m) ||
         (fv.max_value.elim false fun m => m < q) then
        [⟨fv.field_name, .rangeViolation⟩]
      else []
    | _ => []
  let choiceViol :=
    if fv.choices ≠ [] ∧ valueRepr v ∉ fv.choices then
      [⟨fv.field_name, .choiceViolation⟩]
    else []
  lengthViol ++ rangeViol ++ choiceViol

/-- Modelled from the spec: evaluating one FieldValidation against the payload
(§4.2) — missing+required is a `MissingField`, missing+optional skips the
field, a failed type check is a `TypeMismatch`, and a type-correct value runs
the remaining constraint checks. -/
def validateField (payload : List (String × JsonVal)) (fv : FieldValidation) :
    List Violation :=
  match payload.lookup fv.field_name with
  | none => if fv.required then [⟨fv.field_name, .missingField⟩] else []
  | some v =>
    if typeOk fv.field_type v then fieldChecks fv v
    else [⟨fv.field_name, .typeMismatch⟩]

/-- Modelled from the spec: `validate(payload, schema)` (§4.2) — every
FieldValidation is evaluated in declared order and all violations are
collected, never short-circuited. -/
def validate (payload : List (String × JsonVal)) (schema : List FieldValidation) :
    List Violation :=
  schema.flatMap (validateField payload)

/-- Modelled from the spec: the result is valid iff the violation set is
empty (§4.2). -/
def isValid (payload : List (String × JsonVal)) (schema : List FieldValidation) :
    Bool :=
  validate payload schema |>.isEmpty

/-- A SchemaDef record: name, default flag, and its ordered field rules
(data model §3). -/
structure SchemaDef where
  name : String
  is_default : Bool
  validations : List FieldValidation

/-- Modelled from the spec: creating a SchemaDef under an Endpoint (§3's
enforcement rule) — a child created with `is_default = true` atomically
demotes every existing default of the same kind before being appended. -/
def createSchemaDef (existing : List SchemaDef) (s : SchemaDef) : List SchemaDef :=
  if s.is_default then
    existing.map (fun x => { x with is_default := false }) ++ [s]
  else existing ++ [s]

/-- Modelled from the spec: creating a ResponseTemplate under an Endpoint
(§3's enforcement rule), demoting any existing default template. -/
def createResponseTemplate (existing : List ResponseTemplate)
    (t : ResponseTemplate) : List ResponseTemplate :=
  if t.is_default then
    existing.map (fun x => { x with is_default := false }) ++ [t]
  else existing ++ [t]

/-- How many SchemaDefs of an Endpoint are flagged default. -/
def schemaDefaultCount (cs : List SchemaDef) : Nat :=
  (cs.filter (fun c => c.is_default)).length

/-- How many ResponseTemplates of an Endpoint are flagged default. -/
def templateDefaultCount (cs : List ResponseTemplate) : Nat :=
  (cs.filter (fun c => c.is_default)).length

/-- Modelled from the spec: the bounded integer generator `int[lo-hi]`
(§4.4), inclusive on both ends; `seed` abstracts the random draw. -/
def genInt (lo hi : Int) (seed : Nat) : Int :=
  lo + ((seed % (hi - lo + 1).toNat : Nat) : Int)

/-- The alphanumeric alphabet the string generator draws from (§4.4). -/
def alphanumChars : List Char :=
  "ABCDEFGHIJKLMNOPQRSTUVWXYZabcdefghijklmnopqrstuvwxyz0123456789".data

/-- Modelled from the spec: the bounded-length alphanumeric string generator
`string[lo-hi]` (§4.4), the length drawn inclusively from `[lo, hi]`;
`seed` abstracts the random draws. -/
def genString (lo hi : Nat) (seed : Nat) : String :=
  let len := lo + seed % (hi - lo + 1)
  String.mk ((List.range len).map fun i =>
    alphanumChars.getD ((seed + i) % alphanumChars.length) 'A')

/-- Modelled from the spec: the `enum[a,b,...]` generator (§4.4), a uniform
pick from the literal list; `none` on an empty list (invalid params). -/
def genEnum (choices : List String) (seed : Nat) : Option String :=
  choices[seed % choices.length]?

/-- Modelled from the spec: one path+operation of an OpenAPI document as
the importer consumes it (§4.6) — path, HTTP method, the optional `responses`
section (status code paired with a response-schema sketch), and a flag for
nesting deeper than the importer flattens (reported as a warning). -/
structure Operation where
  path : String
  method : String
  responses : Option (List (Int × String))
  deep_nesting : Bool
deriving DecidableEq, Repr

/-- What synthesizing one operation produces: the endpoint identity, how many
response templates were synthesized, and non-fatal warnings (§4.6). -/
structure SynthesisResult where
  endpoint_path : String
  endpoint_method : String
  templates_count : Nat
  warnings : List String
deriving DecidableEq, Repr

/-- Modelled from the spec: synthesizing one path+operation (§4.6, §8's
scenario) — an operation missing its `responses` section fails with an
`ImportItemError`; otherwise one endpoint is synthesized, with a non-fatal
warning when deep nesting was flattened. -/
def synthesizeOp (op : Operation) : Except String SynthesisResult :=
  match op.responses with
  | none => .error (op.method ++ " " ++ op.path ++ ": missing responses section")
  | some rs =>
    .ok { endpoint_path := op.path
          endpoint_method := op.method
          templates_count := rs.length
          warnings :=
            if op.deep_nesting then
              [op.method ++ " " ++ op.path ++ ": nested object flattened"]
            else [] }

/-- The importer's aggregated outcome (§3, §4.6): created count, the created
records, and the collected warnings and per-item errors. -/
structure ImportOutcome where
  total_created : Nat
  created : List SynthesisResult
  warnings : List String
  errors : List String
deriving DecidableEq, Repr

/-- How the importer's `apply` step treats one operation: a successful
synthesis is created (counted, recorded, its warnings collected) and a failed
one only adds its error. -/
def importStep (acc : ImportOutcome) (op : Operation) : ImportOutcome :=
  match synthesizeOp op with
  | .ok r =>
    { acc with
      total_created := acc.total_created + 1
      created := acc.created ++ [r]
      warnings := acc.warnings ++ r.warnings }
  | .error e => { acc with errors := acc.errors ++ [e] }

/-- Modelled from the spec: the importer's `apply` step (§4.6) folds over the
document's operations, creating each synthesizable one and collecting each
per-item failure as an error without aborting the rest. -/
def applyImport (doc : List Operation) : ImportOutcome :=
  doc.foldl importStep
    { total_created := 0, created := [], warnings := [], errors := [] }

/-- The successful synthesis of an operation, if any. -/
def synthOk (op : Operation) : Option SynthesisResult :=
  match synthesizeOp op with
  | .ok r => some r
  | .error _ => none

/-- The synthesis error of an operation, if any. -/
def synthErr (op : Operation) : Option String :=
  match synthesizeOp op with
  | .ok _ => none
  | .error e => some e

/-! ## Admin frontend (embedded from `src/frontend/src`) -/

/-- A JavaScript value as the SchemaForm holds it: a string (`jsStr ""` is the
empty string the form initializes constraints to), a parsed number, `NaN`,
a boolean, a string list (the `choices` array) or `null`. -/
inductive JSVal where
  | jsStr (s : String)
  | jsNum (q : Rat)
  | jsNaN
  | jsBool (b : Bool)
  | jsList (xs : List String)
  | jsNull
deriving DecidableEq, Repr

/-- The four constraint keys `SchemaForm.handleSubmit` converts with
`parseFloat` (TemplateForm.jsx). -/
def numericKeys : List String :=
  ["min_length", "max_length", "min_value", "max_value"]

/-- Decimal parsing of a form input's text into a rational, the embedding of
JavaScript `parseFloat` on the number-input values the form submits: an
optional sign, digits, and an optional fractional part. `none` stands for
`NaN`. -/
def parseFloatQ (s : String) : Option Rat :=
  let signed : Bool × List Char :=
    match s.data with
    | '-' :: rest => (true, rest)
    | cs => (false, cs)
  let mag : Option Rat :=
    match signed.2.splitOn '.' with
    | [as] => (digitsVal as).map fun n => (n : Rat)
    | [as, bs] =>
      match digitsVal as, digitsVal bs with
      | some ia, some nb => some ((ia : Rat) + (nb : Rat) / ((10 : Rat) ^ bs.length))
      | _, _ => none
    | _ => none
  mag.map fun m => if signed.1 then -m else m

/-- `parseFloat` on a JS value: numbers pass through, parseable strings parse,
everything else is `NaN`. -/
def jsParseFloat : JSVal → JSVal
  | .jsStr s =>
    match parseFloatQ s with
    | some q => .jsNum q
    | none => .jsNaN
  | .jsNum q => .jsNum q
  | _ => .jsNaN

/-- One key of a validation object under `SchemaForm.handleSubmit`'s cleanup
(TemplateForm.jsx, `cleanValidations`): a value of `''` or `null` is deleted;
a surviving value under one of the four numeric constraint keys is replaced by
its `parseFloat`; every other value is kept as-is. (The source's inner
`!== ''` re-check is unreachable, the empty string having been deleted
already.) -/
def cleanField (k : String) (v : JSVal) : Option JSVal :=
  if v = .jsStr "" ∨ v = .jsNull then none
  else if k ∈ numericKeys then some (jsParseFloat v)
  else some v

/-- `SchemaForm.handleSubmit`'s cleanup of one validation record, the record
modelled as its key/value list. -/
def cleanValidation (fields : List (String × JSVal)) : List (String × JSVal) :=
  fields.filterMap fun kv => (cleanField kv.1 kv.2).map fun v => (kv.1, v)

/-- Whitespace trimming of both ends of a character list, the embedding of
JavaScript `String.prototype.trim`. -/
def trimChars (cs : List Char) : List Char :=
  ((cs.dropWhile Char.isWhitespace).reverse.dropWhile Char.isWhitespace).reverse

/-- `SchemaForm.updateValidation` on the `choices` field (TemplateForm.jsx):
the comma-separated input is split on every comma, each entry trimmed, and
falsy (empty) entries removed — `value.split(',').map(s => s.trim())
.filter(s => s)`, over the string's character list. -/
def updateValidationChoices (value : String) : List String :=
  (((value.data.splitOn ',').map fun cs => String.mk (trimChars cs)).filter
    fun s => s != "")

/-- The `OpenAPIImport` component's state (TemplateForm.jsx): the selected
file (identified by a number), the file a dry-run validation is pending for,
and the last validation result tagged with the file it validated. -/
structure ImportUI where
  file : Option Nat
  validating : Option Nat
  validationResult : Option (Nat × Bool)
deriving DecidableEq, Repr

/-- `OpenAPIImport`'s initial state: no file, no pending validation, no
result. -/
def initImportUI : ImportUI := ⟨none, none, none⟩

/-- The events the `OpenAPIImport` component reacts to: a file selection
(`handleFileSelect`/`handleDrop`, which call `validateFile`), the validate
mutation returning, and a click on the Import button (`handleImport`). -/
inductive UIEvent where
  | selectFile (f : Nat)
  | validateReturns (valid : Bool)
  | clickImport
deriving DecidableEq, Repr

/-- One step of the `OpenAPIImport` component; the second component is the
file passed to `importMutation.mutate`, when `handleImport` fires it.
Selecting a file stores it, resets `validationResult` to `null` and starts
its validation (`validateFile`); a returning validation records its verdict
for the file it was started on; `handleImport` invokes the import only when
a file is selected and the current validation result is valid. -/
def uiStep (s : ImportUI) : UIEvent → ImportUI × Option Nat
  | .selectFile f =>
    ({ file := some f, validating := some f, validationResult := none }, none)
  | .validateReturns b =>
    match s.validating with
    | some f =>
      ({ s with validating := none, validationResult := some (f, b) }, none)
    | none => (s, none)
  | .clickImport =>
    match s.file, s.validationResult with
    | some f, some (_, true) => (s, some f)
    | _, _ => (s, none)

/-- The Import button's `disabled` condition (TemplateForm.jsx):
`!file || !validationResult?.valid` (the in-flight `isLoading` disjunct is
not modelled). -/
def importDisabled (s : ImportUI) : Bool :=
  s.file.isNone ||
    (match s.validationResult with
     | some (_, true) => false
     | _ => true)

/-- The component state after a sequence of events from the initial state. -/
def uiRun (events : List UIEvent) : ImportUI :=
  events.foldl (fun s e => (uiStep s e).1) initImportUI

/-- The `CreateEndpoint` form's fields (CreateEndpoint component,
`src/unnamed/part_001`). -/
structure EndpointFormData where
  name : String
  path : String
  method : String
  description : String
  is_active : Bool
deriving DecidableEq, Repr

/-- Whether a character is matched by JavaScript's `.` (no line
terminators). -/
def jsDotMatches (c : Char) : Bool :=
  !(c == '\n' || c == '\r' || c == '\u2028' || c == '\u2029')

/-- The `CreateEndpoint` path rule's regular expression `^\/.*$`: a leading
`/` followed by characters `.` matches. -/
def pathPatternMatches (s : String) : Bool :=
  match s.data with
  | [] => false
  | c :: rest => c == '/' && rest.all jsDotMatches

/-- The `CreateEndpoint` form's react-hook-form rules: `name` is required,
`path` is required and must match `^\/.*$`. -/
def endpointFormValid (f : EndpointFormData) : Bool :=
  f.name != "" && f.path != "" && pathPatternMatches f.path

/-- Submitting the `CreateEndpoint` form: `handleSubmit` invokes the create
mutation with the data only when every registered rule passes. -/
def submitEndpoint (f : EndpointFormData) : Option EndpointFormData :=
  if endpointFormValid f then some f else none

/-- The options of the `CreateEndpoint` method select, in source order. -/
def methodOptions : List String :=
  ["POST", "GET", "PUT", "DELETE", "PATCH"]

/-- The value a method select submits: the chosen option, the first option
standing in when the index is out of range (a DOM select only ever yields one
of its options). -/
def selectedMethod (i : Nat) : String :=
  methodOptions.getD i "POST"

/-! ## Theorems -/

/-- A template named `ok`, status 200, the default (the spec's §8 scenario). -/
def okTemplate : ResponseTemplate :=
  { name := "ok", status_code := 200, content_type := "application/json",
    body := "\x7b\x7d", is_default := true }

/-- A template named `boom`, status 500, not default (the spec's §8
scenario). -/
def boomTemplate : ResponseTemplate :=
  { name := "boom", status_code := 500, content_type := "application/json",
    body := "\x7b\x7d", is_default := false }

/-- C1: force-response template selection follows the exact order — the first
template whose name equals the directive (case-sensitively); else, when the
directive parses as an integer, the first template whose status code equals
it; else the template flagged default — and, being a pure function of the
endpoint state and directive, repeated calls select the same template. -/
theorem selectTemplate_follows_force_order (ts : List ResponseTemplate)
    (v : String) :
    (∀ t, ts.find? (fun t => t.name == v) = some t →
      selectTemplate ts (some v) = some t ∧ t.name = v ∧ t ∈ ts) ∧
    (ts.find? (fun t => t.name == v) = none →
      ∀ n t, parseIntDir v = some n →
        ts.find? (fun t => t.status_code == n) = some t →
        selectTemplate ts (some v) = some t ∧ t.status_code = n ∧ t ∈ ts) ∧
    (ts.find? (fun t => t.name == v) = none → parseIntDir v = none →
      selectTemplate ts (some v) = ts.find? (fun t => t.is_default)) ∧
    (ts.find? (fun t => t.name == v) = none →
      ∀ n, parseIntDir v = some n →
        ts.find? (fun t => t.status_code == n) = none →
        selectTemplate ts (some v) = ts.find? (fun t => t.is_default)) ∧
    selectTemplate ts (some v) = selectTemplate ts (some v) := by
  refine ⟨?_, ?_, ?_, ?_, rfl⟩
  · intro t h
    have hp := List.find?_some h
    exact ⟨by simp [selectTemplate, h], eq_of_beq hp, List.mem_of_find?_eq_some h⟩
  · intro h n t hn ht
    have hp := List.find?_some ht
    exact ⟨by simp [selectTemplate, h, hn, ht], eq_of_beq hp,
      List.mem_of_find?_eq_some ht⟩
  · intro h hn
    simp [selectTemplate, h, hn]
  · intro h n hn hs
    simp [selectTemplate, h, hn, hs]

/-- C1 witness: on the spec's §8 scenario endpoint (`ok` 200 default, `boom`
500), the directive `"500"` selects `boom` by status code. -/
theorem selectTemplate_follows_force_order_witness :
    selectTemplate [okTemplate, boomTemplate] (some "500") = some boomTemplate ∧
    boomTemplate.status_code = 500 ∧
    boomTemplate ∈ [okTemplate, boomTemplate] :=
  (selectTemplate_follows_force_order [okTemplate, boomTemplate] "500").2.1
    (by decide) 500 boomTemplate (by decide) (by decide)

/-- All SchemaDefs demoted by a new default have `is_default = false`, so none
of them pass the default filter. -/
lemma filter_default_demoted_schemas (ss : List SchemaDef) :
    (ss.map fun x => { x with is_default := false }).filter
        (fun c => c.is_default) = [] := by
  induction ss with
  | nil => rfl
  | cons a l ih => simp [List.filter, ih]

/-- All ResponseTemplates demoted by a new default have `is_default = false`,
so none of them pass the default filter. -/
lemma filter_default_demoted_templates (ts : List ResponseTemplate) :
    (ts.map fun x => { x with is_default := false }).filter
        (fun c => c.is_default) = [] := by
  induction ts with
  | nil => rfl
  | cons a l ih => simp [List.filter, ih]

/-- C3: at most one SchemaDef and one ResponseTemplate per Endpoint is
flagged default — creating a child preserves the at-most-one-default
invariant, and creating a child with `is_default = true` demotes any existing
default, leaving exactly the newest child flagged. -/
theorem default_flag_demotion_unique (ss : List SchemaDef) (s : SchemaDef)
    (ts : List ResponseTemplate) (t : ResponseTemplate) :
    (schemaDefaultCount ss ≤ 1 →
      schemaDefaultCount (createSchemaDef ss s) ≤ 1) ∧
    (s.is_default = true →
      (createSchemaDef ss s).filter (fun c => c.is_default) = [s]) ∧
    (templateDefaultCount ts ≤ 1 →
      templateDefaultCount (createResponseTemplate ts t) ≤ 1) ∧
    (t.is_default = true →
      (createResponseTemplate ts t).filter (fun c => c.is_default) = [t]) := by
  have hs : s.is_default = true →
      (createSchemaDef ss s).filter (fun c => c.is_default) = [s] := by
    intro h
    simp [createSchemaDef, h, List.filter_append, filter_default_demoted_schemas,
      List.filter]
  have ht : t.is_default = true →
      (createResponseTemplate ts t).filter (fun c => c.is_default) = [t] := by
    intro h
    simp [createResponseTemplate, h, List.filter_append,
      filter_default_demoted_templates, List.filter]
  refine ⟨?_, hs, ?_, ht⟩
  · intro hle
    by_cases h : s.is_default
    · simp [schemaDefaultCount, hs h]
    · simp only [schemaDefaultCount, createSchemaDef, h, if_neg,
        Bool.false_eq_true, not_false_iff, List.filter_append]
      simpa [List.filter, h] using hle
  · intro hle
    by_cases h : t.is_default
    · simp [templateDefaultCount, ht h]
    · simp only [templateDefaultCount, createResponseTemplate, h, if_neg,
        Bool.false_eq_true, not_false_iff, List.filter_append]
      simpa [List.filter, h] using hle

/-- C3 witness: creating a second default SchemaDef (and a second default
template) on a concrete endpoint leaves exactly the newest one flagged. -/
theorem default_flag_demotion_unique_witness :
    (createSchemaDef [⟨"first", true, []⟩] ⟨"second", true, []⟩).filter
        (fun c => c.is_default) = [⟨"second", true, []⟩] ∧
    (createResponseTemplate [okTemplate]
        { okTemplate with name := "ok2" }).filter (fun c => c.is_default) =
      [{ okTemplate with name := "ok2" }] :=
  ⟨(default_flag_demotion_unique [⟨"first", true, []⟩] ⟨"second", true, []⟩
      [] okTemplate).2.1 rfl,
   (default_flag_demotion_unique [] ⟨"x", true, []⟩ [okTemplate]
      { okTemplate with name := "ok2" }).2.2.2 rfl⟩

/-- The §8 scenario's schema: `email` of type email and `name` a required
string. -/
def emailField : FieldValidation :=
  { field_name := "email", field_type := .email, required := true }

/-- The §8 scenario's `name` rule: a required string with no constraints. -/
def nameField : FieldValidation :=
  { field_name := "name", field_type := .string, required := true }

/-- The §8 scenario's payload: `{"email":"bad","name":"Jo"}`. -/
def scenarioPayload : List (String × JsonVal) :=
  [("email", .str "bad"), ("name", .str "Jo")]

/-- C2: `validate` evaluates every FieldValidation in declared order without
short-circuiting — the violations of a concatenated schema are the
concatenated violations, and their number is the sum of each field rule's
violations (so nothing is dropped or deduplicated) — the result is valid iff
the collected violation set is empty, and a payload violating exactly one
constraint yields exactly one violation. -/
theorem validate_collects_every_violation
    (payload : List (String × JsonVal)) (s1 s2 : List FieldValidation) :
    validate payload (s1 ++ s2) = validate payload s1 ++ validate payload s2 ∧
    (validate payload s1).length
      = (s1.map fun fv => (validateField payload fv).length).sum ∧
    (isValid payload s1 = true ↔ validate payload s1 = []) ∧
    ((s1.map fun fv => (validateField payload fv).length).sum = 1 →
      ∃ w, validate payload s1 = [w]) := by
  have hlen : (validate payload s1).length
      = (s1.map fun fv => (validateField payload fv).length).sum := by
    simp [validate, List.length_flatMap, Function.comp_def]
  refine ⟨List.flatMap_append s1 s2 (validateField payload), hlen, ?_, ?_⟩
  · simp [isValid, List.isEmpty_iff]
  · intro h
    exact List.length_eq_one.mp (hlen.trans h)

/-- C2 witness: on the §8 scenario — schema `email`/`name`, payload
`{"email":"bad","name":"Jo"}` — the violation count is one, so `validate`
reports exactly one violation. -/
theorem validate_collects_every_violation_witness :
    ∃ w, validate scenarioPayload [emailField, nameField] = [w] :=
  (validate_collects_every_violation scenarioPayload [emailField, nameField]
    []).2.2.2 (by decide)

/-- The §8 scenario in full: the bad email yields exactly one violation, a
`TypeMismatch` on `email`, and none on `name`. -/
theorem scenario_one_type_mismatch :
    validate scenarioPayload [emailField, nameField]
      = [⟨"email", .typeMismatch⟩] ∧
    validateField scenarioPayload nameField = [] := by
  exact ⟨by decide, by decide⟩

/-- C4: every request served from a template — name match, status-code match
or default fallback alike — produces a response whose diagnostic
`X-Template-Used` field names the template actually used (and whose status
code and content type come verbatim from it). -/
theorem serveTemplate_reports_template_used (ts : List ResponseTemplate)
    (d : Option String) (t : ResponseTemplate)
    (h : selectTemplate ts d = some t) :
    ∃ r, serveTemplate ts d = some r ∧ r.template_used = t.name ∧
      r.status_code = t.status_code ∧ r.content_type = t.content_type :=
  ⟨{ status_code := t.status_code, content_type := t.content_type,
     body := t.body, template_used := t.name },
   by simp [serveTemplate, h], rfl, rfl, rfl⟩

/-- C4 witness: serving with no directive falls back to the default template
`ok` and the response still reports it in the diagnostic field. -/
theorem serveTemplate_reports_template_used_witness :
    ∃ r, serveTemplate [okTemplate, boomTemplate] none = some r ∧
      r.template_used = okTemplate.name ∧
      r.status_code = okTemplate.status_code ∧
      r.content_type = okTemplate.content_type :=
  serveTemplate_reports_template_used [okTemplate, boomTemplate] none
    okTemplate (by decide)

/-- C5: bounded generator invocations stay within their inclusive bounds —
`int[5-5]` always returns 5, `string[3-3]` always returns a length-3 output,
`enum[a,b]` only ever returns `"a"` or `"b"`, and in general `int[lo-hi]`
lies in `[lo, hi]` whenever `lo ≤ hi` — for every random draw. -/
theorem generators_respect_bounds (seed : Nat) :
    genInt 5 5 seed = 5 ∧
    (genString 3 3 seed).length = 3 ∧
    (∀ r, genEnum ["a", "b"] seed = some r → r = "a" ∨ r = "b") ∧
    (∀ lo hi : Int, lo ≤ hi →
      lo ≤ genInt lo hi seed ∧ genInt lo hi seed ≤ hi) := by
  refine ⟨?_, ?_, ?_, ?_⟩
  · show (5 : Int) + _ = 5
    norm_num [Nat.mod_one]
  · simp [genString, String.length, Nat.mod_one]
  · intro r h
    have h2 : seed % 2 = 0 ∨ seed % 2 = 1 := by omega
    rcases h2 with h2 | h2
    · left
      simpa [genEnum, h2, eq_comm] using h
    · right
      simpa [genEnum, h2, eq_comm] using h
  · intro lo hi hle
    unfold genInt
    have hn : ((hi - lo + 1).toNat : Int) = hi - lo + 1 :=
      Int.toNat_of_nonneg (by omega)
    have hpos : 0 < (hi - lo + 1).toNat := by omega
    have hmod : seed % (hi - lo + 1).toNat < (hi - lo + 1).toNat :=
      Nat.mod_lt _ hpos
    omega

/-- C5 witness: the bounds at the concrete draw 7, and the general bound
discharged on `int[10-20]`. -/
theorem generators_respect_bounds_witness :
    genInt 5 5 7 = 5 ∧ (genString 3 3 7).length = 3 ∧
    (10 ≤ genInt 10 20 7 ∧ genInt 10 20 7 ≤ 20) :=
  ⟨(generators_respect_bounds 7).1, (generators_respect_bounds 7).2.1,
   (generators_respect_bounds 7).2.2.2 10 20 (by norm_num)⟩

/-- Folding the importer's step over a document appends, to whatever was
already accumulated, exactly the synthesized records, their warnings and the
failed items' errors, in document order. -/
lemma foldl_importStep (doc : List Operation) (acc : ImportOutcome) :
    doc.foldl importStep acc =
      { total_created := acc.total_created + (doc.filterMap synthOk).length
        created := acc.created ++ doc.filterMap synthOk
        warnings := acc.warnings ++
          (doc.filterMap synthOk).flatMap SynthesisResult.warnings
        errors := acc.errors ++ doc.filterMap synthErr } := by
  induction doc generalizing acc with
  | nil => simp
  | cons op rest ih =>
    cases hsy : synthesizeOp op with
    | ok r =>
      simp [List.foldl_cons, ih, importStep, hsy, synthOk, synthErr]
      omega
    | error e =>
      simp [List.foldl_cons, ih, importStep, hsy, synthOk, synthErr]

/-- C6: a failure to synthesize one operation is collected as an error
without aborting the rest — the outcome's created records are exactly the
synthesizable operations in document order, its errors exactly the failing
operations' errors, the created count and warnings are reported alongside
them, each operation missing its `responses` section contributes its
`ImportItemError` and no created record, and every synthesizable operation
is still created. -/
theorem applyImport_collects_item_errors (doc : List Operation) :
    (applyImport doc).total_created = (doc.filterMap synthOk).length ∧
    (applyImport doc).created = doc.filterMap synthOk ∧
    (applyImport doc).errors = doc.filterMap synthErr ∧
    (applyImport doc).warnings =
      (doc.filterMap synthOk).flatMap SynthesisResult.warnings ∧
    (∀ op ∈ doc, op.responses = none →
      ∃ e, synthErr op = some e ∧ e ∈ (applyImport doc).errors ∧
        synthOk op = none) ∧
    (∀ op ∈ doc, ∀ r, synthOk op = some r → r ∈ (applyImport doc).created) := by
  have h := foldl_importStep doc
    { total_created := 0, created := [], warnings := [], errors := [] }
  have happ : applyImport doc =
      { total_created := (doc.filterMap synthOk).length
        created := doc.filterMap synthOk
        warnings := (doc.filterMap synthOk).flatMap SynthesisResult.warnings
        errors := doc.filterMap synthErr } := by
    simpa [applyImport] using h
  refine ⟨by simp [happ], by simp [happ], by simp [happ], by simp [happ],
    ?_, ?_⟩
  · intro op hop hresp
    refine ⟨op.method ++ " " ++ op.path ++ ": missing responses section",
      by simp [synthErr, synthesizeOp, hresp], ?_, by simp [synthOk, synthesizeOp, hresp]⟩
    rw [happ]
    exact List.mem_filterMap.mpr
      ⟨op, hop, by simp [synthErr, synthesizeOp, hresp]⟩
  · intro op hop r hr
    rw [happ]
    exact List.mem_filterMap.mpr ⟨op, hop, hr⟩

/-- An operation the importer can synthesize (it has a `responses`
section). -/
def goodOp : Operation :=
  { path := "/users", method := "GET", responses := some [(200, "User")],
    deep_nesting := false }

/-- The §8 scenario's malformed operation: its `responses` section is
missing. -/
def badOp : Operation :=
  { path := "/broken", method := "POST", responses := none,
    deep_nesting := false }

/-- C6 witness: on a document with one good and one malformed operation, the
malformed one's `ImportItemError` is collected, it creates no record, and the
good one is still created. -/
theorem applyImport_collects_item_errors_witness :
    ∃ e, synthErr badOp = some e ∧ e ∈ (applyImport [goodOp, badOp]).errors ∧
      synthOk badOp = none :=
  (applyImport_collects_item_errors [goodOp, badOp]).2.2.2.2.1 badOp
    (by decide) rfl

/-- The §8 import scenario in full: one created record, one item error, and
the outcome reports them together. -/
theorem scenario_import_partial_success :
    (applyImport [goodOp, badOp]).total_created = 1 ∧
    (applyImport [goodOp, badOp]).errors
      = ["POST /broken: missing responses section"] ∧
    (applyImport [goodOp, badOp]).created
      = [{ endpoint_path := "/users", endpoint_method := "GET",
           templates_count := 1, warnings := [] }] := by
  exact ⟨by decide, by decide, by decide⟩

/-- `parseFloat` never produces the empty string or `null`: it yields a
number or `NaN`. -/
lemma jsParseFloat_ne (v : JSVal) :
    jsParseFloat v ≠ .jsStr "" ∧ jsParseFloat v ≠ .jsNull := by
  cases v with
  | jsStr s => rw [jsParseFloat]; split <;> simp
  | jsNum q => simp [jsParseFloat]
  | jsNaN => simp [jsParseFloat]
  | jsBool b => simp [jsParseFloat]
  | jsList xs => simp [jsParseFloat]
  | jsNull => simp [jsParseFloat]

/-- A value that survives `cleanField` is neither the empty string nor
`null`. -/
lemma cleanField_some_ne (k : String) (v w : JSVal)
    (h : cleanField k v = some w) : w ≠ .jsStr "" ∧ w ≠ .jsNull := by
  unfold cleanField at h
  by_cases hvn : v = .jsStr "" ∨ v = .jsNull
  · simp [hvn] at h
  · rw [if_neg hvn] at h
    by_cases hk : k ∈ numericKeys
    · rw [if_pos hk] at h
      have hv := Option.some_injective _ h
      subst hv
      exact jsParseFloat_ne v
    · rw [if_neg hk] at h
      have hv := Option.some_injective _ h
      subst hv
      exact ⟨fun hv => hvn (Or.inl hv), fun hv => hvn (Or.inr hv)⟩

/-- C7: `SchemaForm.handleSubmit`'s cleanup omits every constraint field the
operator left empty (`''` or `null`) from the submitted record, and submits
every non-empty numeric constraint (`min_length`, `max_length`, `min_value`,
`max_value`) as its parsed number. -/
theorem cleanValidation_omits_empty_constraints
    (fields : List (String × JSVal)) (k : String) (v : JSVal) :
    ((k, v) ∈ cleanValidation fields → v ≠ .jsStr "" ∧ v ≠ .jsNull) ∧
    (∀ s q, k ∈ numericKeys → (k, .jsStr s) ∈ fields → s ≠ "" →
      parseFloatQ s = some q → (k, .jsNum q) ∈ cleanValidation fields) := by
  constructor
  · intro h
    unfold cleanValidation at h
    obtain ⟨⟨k', v'⟩, hmem, hf⟩ := List.mem_filterMap.mp h
    obtain ⟨w, hw, hkw⟩ := Option.map_eq_some'.mp hf
    injection hkw with h1 h2
    subst h1
    subst h2
    exact cleanField_some_ne _ _ _ hw
  · intro s q hk hmem hs hq
    refine List.mem_filterMap.mpr ⟨(k, .jsStr s), hmem, ?_⟩
    have hcond : ¬(JSVal.jsStr s = .jsStr "" ∨ JSVal.jsStr s = .jsNull) := by
      simp [hs]
    rw [cleanField, if_neg hcond, if_pos hk]
    simp [jsParseFloat, hq]

/-- A validation record as the schema form holds it: an `int` field `age`
with `min_value` filled in as `"3"` and the other constraints left empty. -/
def sampleValidationRecord : List (String × JSVal) :=
  [("field_name", .jsStr "age"), ("field_type", .jsStr "int"),
   ("required", .jsBool true), ("min_length", .jsStr ""),
   ("max_length", .jsStr ""), ("min_value", .jsStr "3"),
   ("max_value", .jsStr ""), ("pattern", .jsStr ""), ("choices", .jsList [])]

/-- C7 witness: on the sample record, the non-empty `min_value` of `"3"` is
submitted as the parsed number 3. -/
theorem cleanValidation_omits_empty_constraints_witness :
    ("min_value", JSVal.jsNum 3) ∈ cleanValidation sampleValidationRecord :=
  (cleanValidation_omits_empty_constraints sampleValidationRecord "min_value"
    .jsNull).2 "3" 3 (by decide) (by decide) (by decide) (by decide)

/-- The sample record cleaned in full: the empty constraints are gone, the
filled `min_value` is a number, and nothing is defaulted to zero or empty. -/
theorem scenario_clean_validation :
    cleanValidation sampleValidationRecord =
      [("field_name", .jsStr "age"), ("field_type", .jsStr "int"),
       ("required", .jsBool true), ("min_value", .jsNum 3),
       ("choices", .jsList [])] := by
  decide

/-- The correspondence `OpenAPIImport` maintains between its pieces of state:
a pending validation is for the currently selected file, and the recorded
validation result is for the currently selected file. -/
def uiInv (s : ImportUI) : Prop :=
  (∀ g, s.validating = some g → s.file = some g) ∧
  (∀ f b, s.validationResult = some (f, b) → s.file = some f)

/-- Every `OpenAPIImport` event preserves the state correspondence. -/
lemma uiStep_preserves_inv (s : ImportUI) (e : UIEvent) (h : uiInv s) :
    uiInv (uiStep s e).1 := by
  cases e with
  | selectFile f =>
    exact ⟨fun g hg => hg, fun a b hab => by simp [uiStep] at hab⟩
  | validateReturns b =>
    rcases hv : s.validating with _ | g
    · have hstep : (uiStep s (.validateReturns b)).1 = s := by
        simp [uiStep, hv]
      rw [hstep]
      exact h
    · refine ⟨?_, ?_⟩
      · intro g' hg'
        simp [uiStep, hv] at hg'
      · intro f' b' hr
        simp only [uiStep, hv] at hr ⊢
        injection hr with hpair
        injection hpair with h1 h2
        subst h1
        exact h.1 g hv
  | clickImport =>
    have hstep : (uiStep s .clickImport).1 = s := by
      rcases hf : s.file with _ | f'
      · simp [uiStep, hf]
      · rcases hr : s.validationResult with _ | ⟨g, b⟩
        · simp [uiStep, hf, hr]
        · cases b
          · simp [uiStep, hf, hr]
          · simp [uiStep, hf, hr]
    rw [hstep]
    exact h

/-- The state correspondence holds after any event sequence from the initial
state. -/
lemma uiInv_run (events : List UIEvent) : uiInv (uiRun events) := by
  suffices h : ∀ s, uiInv s →
      uiInv (events.foldl (fun s e => (uiStep s e).1) s) from
    h initImportUI ⟨fun g hg => by simp [initImportUI] at hg,
      fun f b hr => by simp [initImportUI] at hr⟩
  induction events with
  | nil => exact fun s hs => hs
  | cons e rest ih => exact fun s hs => ih _ (uiStep_preserves_inv s e hs)

/-- C8: the admin UI never invokes the OpenAPI import unless a file is
selected and that file's most recent dry-run validation reported valid — any
invocation of the import after any event history implies the selected file has a
valid validation result of its own and the Import button was enabled; a true
`disabled` condition means a click invokes nothing; and selecting a new file
resets the validation result before re-validating it. -/
theorem import_only_after_valid_validation (events : List UIEvent)
    (e : UIEvent) (f : Nat) :
    ((uiStep (uiRun events) e).2 = some f →
      (uiRun events).file = some f ∧
      (uiRun events).validationResult = some (f, true) ∧
      importDisabled (uiRun events) = false ∧ e = .clickImport) ∧
    (∀ s : ImportUI, importDisabled s = true →
      (uiStep s .clickImport).2 = none) ∧
    (∀ s : ImportUI, ∀ g,
      (uiStep s (.selectFile g)).1.validationResult = none ∧
      (uiStep s (.selectFile g)).1.file = some g ∧
      (uiStep s (.selectFile g)).1.validating = some g) := by
  refine ⟨?_, ?_, fun s g => ⟨rfl, rfl, rfl⟩⟩
  · intro h
    have hinv := uiInv_run events
    cases e with
    | selectFile g => simp [uiStep] at h
    | validateReturns b =>
      rcases hv : (uiRun events).validating with _ | g <;>
        simp [uiStep, hv] at h
    | clickImport =>
      rcases hf : (uiRun events).file with _ | f'
      · simp [uiStep, hf] at h
      · rcases hr : (uiRun events).validationResult with _ | ⟨g, b⟩
        · simp [uiStep, hf, hr] at h
        · cases b
          · simp [uiStep, hf, hr] at h
          · simp only [uiStep, hf, hr] at h
            injection h with h
            subst h
            have hfg := hinv.2 g true hr
            rw [hf] at hfg
            injection hfg with hfg
            subst hfg
            exact ⟨rfl, rfl, by simp [importDisabled, hf, hr], rfl⟩
  · intro s hd
    unfold importDisabled at hd
    rcases hf : s.file with _ | f'
    · simp [uiStep, hf]
    · rcases hr : s.validationResult with _ | ⟨g, b⟩
      · simp [uiStep, hf, hr]
      · cases b
        · simp [uiStep, hf, hr]
        · rw [hf, hr] at hd
          simp at hd

/-- C8 witness: after selecting file 1 and its validation returning valid, a
click on Import invokes the import of file 1, and the theorem recovers that
the state indeed held file 1 with a valid result and an enabled button. -/
theorem import_only_after_valid_validation_witness :
    (uiRun [.selectFile 1, .validateReturns true]).file = some 1 ∧
    (uiRun [.selectFile 1, .validateReturns true]).validationResult
      = some (1, true) ∧
    importDisabled (uiRun [.selectFile 1, .validateReturns true]) = false ∧
    UIEvent.clickImport = UIEvent.clickImport :=
  (import_only_after_valid_validation [.selectFile 1, .validateReturns true]
    .clickImport 1).1 (by decide)

/-- C9: every endpoint the Create Endpoint form submits has a non-empty name
and a path that starts with `/` (the form refuses to submit otherwise), and
the method select only ever yields one of GET/POST/PUT/DELETE/PATCH. -/
theorem createEndpoint_requires_name_and_slash_path (f r : EndpointFormData)
    (i : Nat) :
    (submitEndpoint f = some r →
      r = f ∧ r.name ≠ "" ∧ r.path ≠ "" ∧ r.path.data.head? = some '/') ∧
    ((f.name = "" ∨ pathPatternMatches f.path = false) →
      submitEndpoint f = none) ∧
    selectedMethod i ∈ methodOptions := by
  refine ⟨?_, ?_, ?_⟩
  · intro h
    unfold submitEndpoint at h
    by_cases hv : endpointFormValid f
    · rw [if_pos hv] at h
      have hrf := Option.some_injective _ h
      subst hrf
      obtain ⟨⟨hname, hpath⟩, hpat⟩ := by
        simpa [endpointFormValid, Bool.and_eq_true] using hv
      refine ⟨rfl, by simpa using hname, by simpa using hpath, ?_⟩
      unfold pathPatternMatches at hpat
      rcases hd : f.path.data with _ | ⟨c, rest⟩
      · rw [hd] at hpat
        simp at hpat
      · rw [hd] at hpat
        have hc : c = '/' := by
          have := (Bool.and_eq_true _ _).mp hpat |>.1
          simpa using this
        simp [hc]
    · rw [if_neg hv] at h
      simp at h
  · intro hbad
    have hfv : endpointFormValid f = false := by
      rcases hbad with hb | hb
      · simp [endpointFormValid, hb]
      · simp [endpointFormValid, hb]
    simp [submitEndpoint, hfv]
  · rcases i with _ | _ | _ | _ | _ | n
    · decide
    · decide
    · decide
    · decide
    · decide
    · show methodOptions.getD (n + 5) "POST" ∈ methodOptions
      rw [List.getD,
        List.get?_eq_none.mpr (le_trans (by decide) (Nat.le_add_left 5 n))]
      decide

/-- C9 witness: the example form data (named endpoint, path
`/webhook/candidate`) submits, and its submitted record has a non-empty name
and a slash-initial path; the sixth select index still yields a listed
method. -/
theorem createEndpoint_requires_name_and_slash_path_witness :
    (({ name := "Candidate Webhook", path := "/webhook/candidate",
        method := "POST", description := "", is_active := true }
        : EndpointFormData) =
      { name := "Candidate Webhook", path := "/webhook/candidate",
        method := "POST", description := "", is_active := true } ∧
      ({ name := "Candidate Webhook", path := "/webhook/candidate",
         method := "POST", description := "", is_active := true }
         : EndpointFormData).name ≠ "" ∧
      ({ name := "Candidate Webhook", path := "/webhook/candidate",
         method := "POST", description := "", is_active := true }
         : EndpointFormData).path ≠ "" ∧
      ({ name := "Candidate Webhook", path := "/webhook/candidate",
         method := "POST", description := "", is_active := true }
         : EndpointFormData).path.data.head? = some '/') ∧
    selectedMethod 7 ∈ methodOptions :=
  ⟨(createEndpoint_requires_name_and_slash_path
      { name := "Candidate Webhook", path := "/webhook/candidate",
        method := "POST", description := "", is_active := true }
      { name := "Candidate Webhook", path := "/webhook/candidate",
        method := "POST", description := "", is_active := true } 7).1
      (by decide),
   (createEndpoint_requires_name_and_slash_path
      { name := "Candidate Webhook", path := "/webhook/candidate",
        method := "POST", description := "", is_active := true }
      { name := "Candidate Webhook", path := "/webhook/candidate",
        method := "POST", description := "", is_active := true } 7).2.2⟩

/-- C10: the stored choices list is exactly the comma-split entries of the
input, trimmed, with the empty ones removed — an entry is stored iff it is
the non-empty trim of one of the comma-separated pieces — and in particular
the submitted list never contains an empty string. -/
theorem choices_split_trim_nonempty (v : String) (c : String) :
    (c ∈ updateValidationChoices v ↔
      c ≠ "" ∧ ∃ piece ∈ v.data.splitOn ',',
        c = String.mk (trimChars piece)) ∧
    "" ∉ updateValidationChoices v := by
  have hmem : c ∈ updateValidationChoices v ↔
      c ≠ "" ∧ ∃ piece ∈ v.data.splitOn ',',
        c = String.mk (trimChars piece) := by
    unfold updateValidationChoices
    rw [List.mem_filter]
    simp only [List.mem_map, bne_iff_ne, ne_eq]
    constructor
    · rintro ⟨⟨piece, hp, rfl⟩, hne⟩
      exact ⟨hne, piece, hp, rfl⟩
    · rintro ⟨hne, piece, hp, rfl⟩
      exact ⟨⟨piece, hp, rfl⟩, hne⟩
  refine ⟨hmem, ?_⟩
  intro h
  have := (List.mem_filter.mp h).2
  simp at this

/-- C10 witness: the input `"active, ,inactive"` never stores an empty
string. -/
theorem choices_split_trim_nonempty_witness :
    "" ∉ updateValidationChoices "active, ,inactive" :=
  (choices_split_trim_nonempty "active, ,inactive" "x").2

/-- The choices pipeline on a concrete input: entries are trimmed and the
all-whitespace entry is dropped. -/
theorem scenario_choices_concrete :
    updateValidationChoices "active, ,inactive" = ["active", "inactive"] := by
  decide

end AtsMock
